import Mathlib

/-!
Verification development for the Filament web material-sandbox demo.

The sources consist of:
* a web sandbox translation unit (an older revision, with the shared
  `COMMON` block inlined) holding the `SandboxParameters` struct with its
  field defaults, the per-frame `ui` widget pass, the material-model to
  material-instance index mapping, and the material-instance setter calls;
* `samples/web/sandbox.cpp`, the current web sandbox, whose `setup`
  overrides some struct defaults and whose `ui` drives the same widgets and
  additionally synchronises the directional light with the scene;
* a compiled GLSL `310 es` fragment shader.

Modelling conventions:
* C++ `float`/`double` values are embedded as `ℚ`; floating-point rounding
  is not modelled (none of the properties below depends on it).  The C
  `M_PI` macro is embedded as its literal decimal expansion.
* ImGui widgets are external collaborators: a `SliderFloat` either leaves
  the field untouched or stores a user-chosen value constrained to the
  slider's `[min, max]` range, a `Combo` stores one of its entry indices,
  and a `Checkbox` stores a boolean.  A widget only runs when its
  collapsing header is open, mirrored by the `Open` flags of `UIInput`.
* Engine calls (material-instance setters, light-manager setters, scene
  add/remove, camera projection) are embedded as the argument records the
  demo passes to them.
-/

namespace MaterialSandbox

/-! ### Shading-model and material-instance indices (COMMON block) -/

def MATERIAL_MODEL_UNLIT : ℤ := 0
def MATERIAL_MODEL_LIT : ℤ := 1
def MATERIAL_MODEL_SUBSURFACE : ℤ := 2
def MATERIAL_MODEL_CLOTH : ℤ := 3

def MATERIAL_UNLIT : ℤ := 0
def MATERIAL_LIT : ℤ := 1
def MATERIAL_SUBSURFACE : ℤ := 2
def MATERIAL_CLOTH : ℤ := 3
def MATERIAL_TRANSPARENT : ℤ := 4
def MATERIAL_FADE : ℤ := 5
def MATERIAL_COUNT : ℤ := 6

def BLENDING_OPAQUE : ℤ := 0
def BLENDING_TRANSPARENT : ℤ := 1
def BLENDING_FADE : ℤ := 2

/-- Decimal expansion of the C `M_PI` macro (`math.h`), assigned to
`iblRotation` by the web sandbox's `setup`. -/
def M_PI : ℚ := 3.14159265358979323846

/-- Filament `sRGBColor`: an rgb triple. -/
structure sRGBColor where
  r : ℚ
  g : ℚ
  b : ℚ
  deriving DecidableEq

/-- Filament `math::float3`. -/
structure float3 where
  x : ℚ
  y : ℚ
  z : ℚ
  deriving DecidableEq

/-- The `SandboxParameters` struct of the COMMON block, with its declared
field defaults.  `currentMaterialModel` and `currentBlending` are C `int`s,
embedded as `ℤ`. -/
structure SandboxParameters where
  color : sRGBColor := ⟨0.69, 0.69, 0.69⟩
  alpha : ℚ := 1.0
  roughness : ℚ := 0.6
  metallic : ℚ := 0.0
  reflectance : ℚ := 0.5
  clearCoat : ℚ := 0.0
  clearCoatRoughness : ℚ := 0.0
  anisotropy : ℚ := 0.0
  thickness : ℚ := 1.0
  subsurfacePower : ℚ := 12.234
  subsurfaceColor : sRGBColor := ⟨0.0, 0.0, 0.0⟩
  sheenColor : sRGBColor := ⟨0.83, 0.0, 0.0⟩
  currentMaterialModel : ℤ := MATERIAL_MODEL_LIT
  currentBlending : ℤ := BLENDING_OPAQUE
  castShadows : Bool := true
  lightColor : sRGBColor := ⟨0.98, 0.92, 0.89⟩
  lightIntensity : ℚ := 110000.0
  lightDirection : float3 := ⟨0.6, -1.0, -0.8⟩
  iblIntensity : ℚ := 30000.0
  iblRotation : ℚ := 0.0
  sunHaloSize : ℚ := 10.0
  sunHaloFalloff : ℚ := 80.0
  sunAngularRadius : ℚ := 1.9
  directional_light_enabled : Bool := true
  deriving DecidableEq

/-- The declaration-order field names of `SandboxParameters`, as spelled in
the source struct. -/
def sandboxParametersFields : List String :=
  ["color", "alpha", "roughness", "metallic", "reflectance", "clearCoat",
   "clearCoatRoughness", "anisotropy", "thickness", "subsurfacePower",
   "subsurfaceColor", "sheenColor", "currentMaterialModel", "currentBlending",
   "castShadows", "lightColor", "lightIntensity", "lightDirection",
   "iblIntensity", "iblRotation", "sunHaloSize", "sunHaloFalloff",
   "sunAngularRadius", "directional_light_enabled"]

/-- The field enumeration asserted by the spec sentence behind C5
("color, roughness, metallic, reflectance, clear-coat terms, subsurface
terms, sheen color, light direction/intensity/angle, IBL
intensity/rotation, boolean toggles for shadows and directional light"),
with the collective terms expanded to the matching source field names. -/
def c5ClaimedFields : List String :=
  ["color", "roughness", "metallic", "reflectance", "clearCoat",
   "clearCoatRoughness", "thickness", "subsurfacePower", "subsurfaceColor",
   "sheenColor", "lightDirection", "lightIntensity", "sunAngularRadius",
   "iblIntensity", "iblRotation", "castShadows", "directional_light_enabled"]

/-- The field enumeration of C5 amended with the seven struct fields the
claim's list misses: alpha, anisotropy, the material-model and blending
selectors, the light color, and the two sun-halo terms. -/
def c5AmendedFields : List String :=
  ["color", "alpha", "roughness", "metallic", "reflectance", "clearCoat",
   "clearCoatRoughness", "anisotropy", "thickness", "subsurfacePower",
   "subsurfaceColor", "sheenColor", "currentMaterialModel", "currentBlending",
   "lightColor", "lightDirection", "lightIntensity", "sunAngularRadius",
   "sunHaloSize", "sunHaloFalloff", "iblIntensity", "iblRotation",
   "castShadows", "directional_light_enabled"]

/-- The record declared at file scope (`static SandboxApp app; app.params`)
before `setup` runs: the struct defaults. -/
def initialSandboxParameters : SandboxParameters := {}

/-- The parameter record after `setup` in `samples/web/sandbox.cpp` has run:
the struct defaults with the demo-chosen overrides assigned there. -/
def webSetupParams : SandboxParameters :=
  { initialSandboxParameters with
      iblIntensity := 10000.0,
      lightDirection := ⟨0, 0, -1⟩,
      iblRotation := M_PI,
      clearCoat := 0.7,
      metallic := 0.25,
      reflectance := 0.75,
      color := ⟨158 / 255, 118 / 255, 74 / 255⟩ }

/-! ### The per-frame `ui` widget pass -/

/-- Clamp a slider value to the slider's range. -/
def clampQ (lo hi v : ℚ) : ℚ := max lo (min v hi)

/-- One `ImGui::SliderFloat(label, &field, lo, hi)`: an untouched field
keeps its value, an edited field stores the user's value constrained to
`[lo, hi]`. -/
def editScalar (lo hi cur : ℚ) : Option ℚ → ℚ
  | none => cur
  | some v => clampQ lo hi v

/-- One `ImGui::SliderFloat3(label, &field.x, lo, hi)`: each component is
constrained to `[lo, hi]`. -/
def editVec3 (lo hi : ℚ) (cur : float3) : Option float3 → float3
  | none => cur
  | some v => ⟨clampQ lo hi v.x, clampQ lo hi v.y, clampQ lo hi v.z⟩

/-- One `ImGui::ColorEdit3`. -/
def editColor (cur : sRGBColor) : Option sRGBColor → sRGBColor
  | none => cur
  | some c => c

/-- One `ImGui::Checkbox`. -/
def editBool (cur : Bool) : Option Bool → Bool
  | none => cur
  | some b => b

/-- One `ImGui::Combo` over `n` entries: an edit stores the chosen entry
index. -/
def editCombo (n : ℕ) (cur : ℤ) : Option (Fin n) → ℤ
  | none => cur
  | some m => (m.val : ℤ)

/-- The entries of the material-model combo, split out of its
`"unlit\0lit\0subsurface\0cloth\0\0"` item string. -/
def modelComboEntries : List String := ["unlit", "lit", "subsurface", "cloth"]

/-- The entries of the blending combo, split out of its
`"opaque\0transparent\0fade\0\0"` item string. -/
def blendingComboEntries : List String := ["opaque", "transparent", "fade"]

/-- The user interaction consumed by one `ui` call: for each widget, `none`
when the widget is not touched this frame, otherwise the value the user
stores through it; the three `Open` flags say which collapsing headers are
open (widgets of a closed header do not run).  `SliderAngle` stores radians
constrained to its default degree range `[-360, 360]`. -/
structure UIInput where
  materialOpen : Bool := true
  model : Option (Fin modelComboEntries.length) := none
  blending : Option (Fin blendingComboEntries.length) := none
  baseColor : Option sRGBColor := none
  alpha : Option ℚ := none
  roughness : Option ℚ := none
  metallic : Option ℚ := none
  reflectance : Option ℚ := none
  clearCoat : Option ℚ := none
  clearCoatRoughness : Option ℚ := none
  anisotropy : Option ℚ := none
  thickness : Option ℚ := none
  subsurfacePower : Option ℚ := none
  subsurfaceColor : Option sRGBColor := none
  sheenColor : Option sRGBColor := none
  objectOpen : Bool := false
  castShadows : Option Bool := none
  lightOpen : Bool := false
  directionalLightEnabled : Option Bool := none
  lightColor : Option sRGBColor := none
  lightIntensity : Option ℚ := none
  lightDirection : Option float3 := none
  sunAngularRadius : Option ℚ := none
  sunHaloSize : Option ℚ := none
  sunHaloFalloff : Option ℚ := none
  iblIntensity : Option ℚ := none
  iblRotation : Option ℚ := none

/-- An `ui` call with every header closed except the default-open Material
header and no widget touched. -/
def idleUIInput : UIInput := {}

/-- The model combo of the Material header. -/
def uiModelCombo (inp : UIInput) (p : SandboxParameters) : SandboxParameters :=
  { p with currentMaterialModel :=
      editCombo modelComboEntries.length p.currentMaterialModel inp.model }

/-- The blending combo, shown only while the (just-updated) model is lit. -/
def uiBlendingCombo (inp : UIInput) (p : SandboxParameters) : SandboxParameters :=
  if p.currentMaterialModel = MATERIAL_MODEL_LIT then
    { p with currentBlending :=
        editCombo blendingComboEntries.length p.currentBlending inp.blending }
  else p

/-- The base-color editor (always shown inside the Material header). -/
def uiBaseColorEdit (inp : UIInput) (p : SandboxParameters) : SandboxParameters :=
  { p with color := editColor p.color inp.baseColor }

/-- The alpha slider, shown only while blending is transparent or fade. -/
def uiAlphaSlider (inp : UIInput) (p : SandboxParameters) : SandboxParameters :=
  if p.currentBlending = BLENDING_TRANSPARENT ∨
      p.currentBlending = BLENDING_FADE then
    { p with alpha := editScalar 0.0 1.0 p.alpha inp.alpha }
  else p

/-- The roughness slider. -/
def uiRoughnessSlider (inp : UIInput) (p : SandboxParameters) : SandboxParameters :=
  { p with roughness := editScalar 0.0 1.0 p.roughness inp.roughness }

/-- The metallic and reflectance sliders, hidden for the cloth model. -/
def uiMetallicReflectanceSliders (inp : UIInput) (p : SandboxParameters) :
    SandboxParameters :=
  if p.currentMaterialModel ≠ MATERIAL_MODEL_CLOTH then
    { p with metallic := editScalar 0.0 1.0 p.metallic inp.metallic,
             reflectance := editScalar 0.0 1.0 p.reflectance inp.reflectance }
  else p

/-- The clear-coat and anisotropy sliders, hidden for cloth and subsurface. -/
def uiClearCoatSliders (inp : UIInput) (p : SandboxParameters) : SandboxParameters :=
  if p.currentMaterialModel ≠ MATERIAL_MODEL_CLOTH ∧
      p.currentMaterialModel ≠ MATERIAL_MODEL_SUBSURFACE then
    { p with clearCoat := editScalar 0.0 1.0 p.clearCoat inp.clearCoat,
             clearCoatRoughness :=
               editScalar 0.0 1.0 p.clearCoatRoughness inp.clearCoatRoughness,
             anisotropy := editScalar (-1.0) 1.0 p.anisotropy inp.anisotropy }
  else p

/-- The subsurface-only widgets. -/
def uiSubsurfaceWidgets (inp : UIInput) (p : SandboxParameters) : SandboxParameters :=
  if p.currentMaterialModel = MATERIAL_MODEL_SUBSURFACE then
    { p with thickness := editScalar 0.0 1.0 p.thickness inp.thickness,
             subsurfacePower := editScalar 1.0 24.0 p.subsurfacePower inp.subsurfacePower,
             subsurfaceColor := editColor p.subsurfaceColor inp.subsurfaceColor }
  else p

/-- The cloth-only widgets. -/
def uiClothWidgets (inp : UIInput) (p : SandboxParameters) : SandboxParameters :=
  if p.currentMaterialModel = MATERIAL_MODEL_CLOTH then
    { p with sheenColor := editColor p.sheenColor inp.sheenColor,
             subsurfaceColor := editColor p.subsurfaceColor inp.subsurfaceColor }
  else p

/-- The slider block gated on `currentMaterialModel > MATERIAL_MODEL_UNLIT`,
its widgets running in source order on the successively updated record. -/
def uiLitGatedWidgets (inp : UIInput) (p : SandboxParameters) : SandboxParameters :=
  if MATERIAL_MODEL_UNLIT < p.currentMaterialModel then
    uiClothWidgets inp (uiSubsurfaceWidgets inp (uiClearCoatSliders inp
      (uiMetallicReflectanceSliders inp (uiRoughnessSlider inp (uiAlphaSlider inp p)))))
  else p

/-- The `CollapsingHeader("Material")` block of `ui`: the model combo, the
blending combo, the base-color editor, and the model-gated sliders,
mirroring the source's nesting and evaluation order (each guard tests the
values already updated this frame). -/
def uiMaterialSection (inp : UIInput) (p : SandboxParameters) : SandboxParameters :=
  if inp.materialOpen then
    uiLitGatedWidgets inp (uiBaseColorEdit inp (uiBlendingCombo inp (uiModelCombo inp p)))
  else p

/-- The `CollapsingHeader("Object")` block of `ui`: the cast-shadows
checkbox. -/
def uiObjectSection (inp : UIInput) (p : SandboxParameters) : SandboxParameters :=
  if inp.objectOpen then
    { p with castShadows := editBool p.castShadows inp.castShadows }
  else p

/-- The `CollapsingHeader("Light")` block of `ui`: the directional-light
checkbox, the light sliders and the IBL sliders.  `SliderAngle` stores
radians; its default degree bounds are embedded as `±2 · M_PI`. -/
def uiLightSection (inp : UIInput) (p : SandboxParameters) : SandboxParameters :=
  if inp.lightOpen then
    { p with
        directional_light_enabled :=
          editBool p.directional_light_enabled inp.directionalLightEnabled,
        lightColor := editColor p.lightColor inp.lightColor,
        lightIntensity := editScalar 0.0 150000.0 p.lightIntensity inp.lightIntensity,
        lightDirection := editVec3 (-1.0) 1.0 p.lightDirection inp.lightDirection,
        sunAngularRadius := editScalar 0.1 10.0 p.sunAngularRadius inp.sunAngularRadius,
        sunHaloSize := editScalar 1.01 40.0 p.sunHaloSize inp.sunHaloSize,
        sunHaloFalloff := editScalar 0.0 2048.0 p.sunHaloFalloff inp.sunHaloFalloff,
        iblIntensity := editScalar 0.0 50000.0 p.iblIntensity inp.iblIntensity,
        iblRotation :=
          editScalar (-(2 * M_PI)) (2 * M_PI) p.iblRotation inp.iblRotation }
  else p

/-- One `ui` call's effect on the parameter record: the three collapsing
headers run in source order.  (The Debug header touches only the engine's
debug registry, never the record.) -/
def uiStep (inp : UIInput) (p : SandboxParameters) : SandboxParameters :=
  uiLightSection inp (uiObjectSection inp (uiMaterialSection inp p))

/-- The ranges the `ui` sliders impose, field by field. -/
def InRange (v lo hi : ℚ) : Prop := lo ≤ v ∧ v ≤ hi

/-- Conjunction of the slider ranges over every slider-controlled field of
the record. -/
def paramsInRange (p : SandboxParameters) : Prop :=
  InRange p.alpha 0.0 1.0 ∧ InRange p.roughness 0.0 1.0 ∧
  InRange p.metallic 0.0 1.0 ∧ InRange p.reflectance 0.0 1.0 ∧
  InRange p.clearCoat 0.0 1.0 ∧ InRange p.clearCoatRoughness 0.0 1.0 ∧
  InRange p.anisotropy (-1.0) 1.0 ∧ InRange p.thickness 0.0 1.0 ∧
  InRange p.subsurfacePower 1.0 24.0 ∧
  InRange p.lightIntensity 0.0 150000.0 ∧
  InRange p.lightDirection.x (-1.0) 1.0 ∧ InRange p.lightDirection.y (-1.0) 1.0 ∧
  InRange p.lightDirection.z (-1.0) 1.0 ∧
  InRange p.sunAngularRadius 0.1 10.0 ∧ InRange p.sunHaloSize 1.01 40.0 ∧
  InRange p.sunHaloFalloff 0.0 2048.0 ∧ InRange p.iblIntensity 0.0 50000.0

/-! ### The tail of `ui`: material selection and engine setter calls -/

/-- The material-instance index computation at the end of `ui`:
sequentially, `material` starts at the current model and, when the model is
lit, is redirected by the blending mode. -/
def selectMaterial (model blending : ℤ) : ℤ :=
  if model = MATERIAL_MODEL_LIT then
    let material := if blending = BLENDING_TRANSPARENT then MATERIAL_TRANSPARENT else model
    if blending = BLENDING_FADE then MATERIAL_FADE else material
  else model

/-- A value passed to `MaterialInstance::setParameter`: either a plain
float or an sRGB color triple. -/
inductive ParamValue
  | scalar (v : ℚ)
  | srgb (c : sRGBColor)
  deriving DecidableEq

/-- The `setParameter` calls the tail of `ui` issues on the active material
instance this frame, in source order: one block per shading model, each
guarded by the current model, with `alpha` additionally guarded by the
blending mode. -/
def uiMaterialSetters (p : SandboxParameters) : List (String × ParamValue) :=
  (if p.currentMaterialModel = MATERIAL_MODEL_UNLIT then
    [("baseColor", ParamValue.srgb p.color)]
  else []) ++
  (if p.currentMaterialModel = MATERIAL_MODEL_LIT then
    [("baseColor", ParamValue.srgb p.color),
     ("roughness", ParamValue.scalar p.roughness),
     ("metallic", ParamValue.scalar p.metallic),
     ("reflectance", ParamValue.scalar p.reflectance),
     ("clearCoat", ParamValue.scalar p.clearCoat),
     ("clearCoatRoughness", ParamValue.scalar p.clearCoatRoughness),
     ("anisotropy", ParamValue.scalar p.anisotropy)] ++
    (if p.currentBlending ≠ BLENDING_OPAQUE then
      [("alpha", ParamValue.scalar p.alpha)]
    else [])
  else []) ++
  (if p.currentMaterialModel = MATERIAL_MODEL_SUBSURFACE then
    [("baseColor", ParamValue.srgb p.color),
     ("roughness", ParamValue.scalar p.roughness),
     ("metallic", ParamValue.scalar p.metallic),
     ("reflectance", ParamValue.scalar p.reflectance),
     ("thickness", ParamValue.scalar p.thickness),
     ("subsurfacePower", ParamValue.scalar p.subsurfacePower),
     ("subsurfaceColor", ParamValue.srgb p.subsurfaceColor)]
  else []) ++
  (if p.currentMaterialModel = MATERIAL_MODEL_CLOTH then
    [("baseColor", ParamValue.srgb p.color),
     ("roughness", ParamValue.scalar p.roughness),
     ("sheenColor", ParamValue.srgb p.sheenColor),
     ("subsurfaceColor", ParamValue.srgb p.subsurfaceColor)]
  else [])

/-- The per-frame state of the engine's directional light as the demo
configures it. -/
structure LightManagerState where
  color : sRGBColor
  intensity : ℚ
  direction : float3
  sunAngularRadius : ℚ
  sunHaloSize : ℚ
  sunHaloFalloff : ℚ
  deriving DecidableEq

/-- Modelled from the spec: the web sandbox's `ui` forwards the record to
`updateInstances` declared in `material_sandbox.h`, a file not among the
provided sources; per the spec, the parameter record is "read each frame
and pushed into the external engine's material-instance and light-manager
objects", so the directional-light fields edited in the UI are handed to
the light manager's setters each frame. -/
def pushLightParameters (p : SandboxParameters) : LightManagerState :=
  ⟨p.lightColor, p.lightIntensity, p.lightDirection,
   p.sunAngularRadius, p.sunHaloSize, p.sunHaloFalloff⟩

/-! ### Directional-light / scene synchronisation (samples/web/sandbox.cpp) -/

/-- A scene mutation issued by `ui`'s directional-light block. -/
inductive SceneOp
  | add
  | remove
  deriving DecidableEq

/-- The directional-light block at the end of `ui` in
`samples/web/sandbox.cpp`: given the UI toggle and the
`hasDirectionalLight` flag, it returns the new flag and the scene call it
issues (if any). -/
def updateDirectionalLight (enabled has : Bool) : Bool × Option SceneOp :=
  if enabled && !has then (true, some SceneOp.add)
  else if !enabled && has then (false, some SceneOp.remove)
  else (has, none)

/-- Effect of a scene call on whether the light entity is present in the
scene. -/
def applySceneOp (inScene : Bool) : Option SceneOp → Bool
  | none => inScene
  | some SceneOp.add => true
  | some SceneOp.remove => false

/-! ### The frame loop (filaweb) -/

/-- The three callbacks handed to `filaweb::Application::run`. -/
inductive FrameCallback
  | setup
  | animate
  | ui
  deriving DecidableEq

/-- The per-frame tail of the callback schedule: each frame invokes
`animate` then `ui`. -/
def frameLoop : ℕ → List FrameCallback
  | 0 => []
  | n + 1 => FrameCallback.animate :: FrameCallback.ui :: frameLoop n

/-- Modelled from the spec: `filaweb::Application::run` belongs to the
external filaweb layer, not among the provided sources; per the spec the
engine drives the demo single-threadedly, "setup once, then
animate/draw-UI every frame".  `runTrace n` is the callback schedule of a
run of `n` frames. -/
def runTrace (n : ℕ) : List FrameCallback :=
  FrameCallback.setup :: frameLoop n

/-! ### The animate callback: camera projection -/

/-- Camera field-of-view direction (`Camera::Fov`). -/
inductive Fov
  | HORIZONTAL
  | VERTICAL
  deriving DecidableEq

/-- The argument record of a `Camera::setProjection` call. -/
structure ProjectionCall where
  fovInDegrees : ℚ
  aspect : ℚ
  near : ℚ
  far : ℚ
  direction : Fov
  deriving DecidableEq

/-- The aspect-ratio computation in `animate`:
`double ratio = double(width) / height;` with no guard — a division, which
has a defined result only when the viewport height is nonzero.  The
partiality is made explicit with `Option`. -/
def aspectRatio (width height : ℕ) : Option ℚ :=
  if height = 0 then none else some ((width : ℚ) / (height : ℚ))

/-- The `setProjection` call `animate` issues each frame:
`setProjection(45.0, ratio, 0.1, 50.0, ratio < 1 ? HORIZONTAL : VERTICAL)`. -/
def animateSetProjection (width height : ℕ) : Option ProjectionCall :=
  match aspectRatio width height with
  | none => none
  | some r =>
    some ⟨45.0, r, 0.1, 50.0, if r < 1 then Fov.HORIZONTAL else Fov.VERTICAL⟩

/-! ### The compiled fragment shader -/

/-- GLSL `vec2`. -/
structure vec2 where
  x : ℚ
  y : ℚ
  deriving DecidableEq

/-- GLSL `vec3`. -/
structure vec3 where
  x : ℚ
  y : ℚ
  z : ℚ
  deriving DecidableEq

/-- GLSL `vec4`. -/
structure vec4 where
  x : ℚ
  y : ℚ
  z : ℚ
  w : ℚ
  deriving DecidableEq

instance : Add vec4 := ⟨fun a b => ⟨a.x + b.x, a.y + b.y, a.z + b.z, a.w + b.w⟩⟩

instance : Add vec2 := ⟨fun a b => ⟨a.x + b.x, a.y + b.y⟩⟩

/-- GLSL `ivec2`, the result type of `textureSize`. -/
structure ivec2 where
  x : ℤ
  y : ℤ
  deriving DecidableEq

/-- The `vec2(…)` conversion applied to a `textureSize` result. -/
def vec2OfIvec2 (s : ivec2) : vec2 := ⟨(s.x : ℚ), (s.y : ℚ)⟩

/-- Componentwise `vec2` division, used for `vec2(1.0) / vec2(textureSize(…))`. -/
def vec2Div (a b : vec2) : vec2 := ⟨a.x / b.x, a.y / b.y⟩

/-- The GLSL `vec2(1.0)` constructor. -/
def vec2One : vec2 := ⟨1.0, 1.0⟩

/-- The version directive of the compiled fragment shader. -/
def shaderVersion : String := "310 es"

/-- The texturing environment of the fragment shader: the four-element
binding arrays `uTexture`, `uTextureArray`, `uTextureCube`, `uTexture3D`
(each sampled through the single `uSampler`), and `textureSize` of the 2D
textures at a given lod. -/
structure ShaderEnv where
  uTexture : Fin 4 → vec2 → vec4
  uTextureSize : Fin 4 → ℕ → ivec2
  uTextureArray : Fin 4 → vec3 → vec4
  uTextureCube : Fin 4 → vec3 → vec4
  uTexture3D : Fin 4 → vec3 → vec4

/-- The shader's `main`: the offset coordinate `_95` and the `FragColor`
sum, with the source's association. -/
def fragMain (env : ShaderEnv) (vTex : vec2) (vTex3 : vec3) : vec4 :=
  let v95 :=
    (vTex + vec2Div vec2One (vec2OfIvec2 (env.uTextureSize 1 0))) +
      vec2Div vec2One (vec2OfIvec2 (env.uTextureSize 2 1))
  ((((env.uTexture 2 v95 + env.uTexture 1 v95) + env.uTexture 1 v95) +
        env.uTextureArray 3 vTex3) +
      env.uTextureCube 1 vTex3) +
    env.uTexture3D 2 vTex3

/-! ## Theorems -/

theorem InRange_editScalar (lo hi cur : ℚ) (o : Option ℚ)
    (h : InRange cur lo hi) : InRange (editScalar lo hi cur o) lo hi := by
  cases o with
  | none => exact h
  | some v => exact ⟨le_max_left _ _, max_le (le_trans h.1 h.2) (min_le_right _ _)⟩

theorem InRange_editVec3_x (lo hi : ℚ) (cur : float3) (o : Option float3)
    (h : InRange cur.x lo hi) : InRange (editVec3 lo hi cur o).x lo hi := by
  cases o with
  | none => exact h
  | some v => exact ⟨le_max_left _ _, max_le (le_trans h.1 h.2) (min_le_right _ _)⟩

theorem InRange_editVec3_y (lo hi : ℚ) (cur : float3) (o : Option float3)
    (h : InRange cur.y lo hi) : InRange (editVec3 lo hi cur o).y lo hi := by
  cases o with
  | none => exact h
  | some v => exact ⟨le_max_left _ _, max_le (le_trans h.1 h.2) (min_le_right _ _)⟩

theorem InRange_editVec3_z (lo hi : ℚ) (cur : float3) (o : Option float3)
    (h : InRange cur.z lo hi) : InRange (editVec3 lo hi cur o).z lo hi := by
  cases o with
  | none => exact h
  | some v => exact ⟨le_max_left _ _, max_le (le_trans h.1 h.2) (min_le_right _ _)⟩

theorem uiModelCombo_preserves (inp : UIInput) (p : SandboxParameters)
    (h : paramsInRange p) : paramsInRange (uiModelCombo inp p) := h

theorem uiBlendingCombo_preserves (inp : UIInput) (p : SandboxParameters)
    (h : paramsInRange p) : paramsInRange (uiBlendingCombo inp p) := by
  unfold uiBlendingCombo
  split_ifs <;> exact h

theorem uiBaseColorEdit_preserves (inp : UIInput) (p : SandboxParameters)
    (h : paramsInRange p) : paramsInRange (uiBaseColorEdit inp p) := h

theorem uiAlphaSlider_preserves (inp : UIInput) (p : SandboxParameters)
    (h : paramsInRange p) : paramsInRange (uiAlphaSlider inp p) := by
  obtain ⟨h1, h2, h3, h4, h5, h6, h7, h8, h9, h10, h11, h12, h13, h14, h15, h16, h17⟩ := h
  unfold uiAlphaSlider
  split_ifs
  · exact ⟨InRange_editScalar _ _ _ _ h1, h2, h3, h4, h5, h6, h7, h8, h9, h10,
           h11, h12, h13, h14, h15, h16, h17⟩
  · exact ⟨h1, h2, h3, h4, h5, h6, h7, h8, h9, h10, h11, h12, h13, h14, h15, h16, h17⟩

theorem uiRoughnessSlider_preserves (inp : UIInput) (p : SandboxParameters)
    (h : paramsInRange p) : paramsInRange (uiRoughnessSlider inp p) := by
  obtain ⟨h1, h2, h3, h4, h5, h6, h7, h8, h9, h10, h11, h12, h13, h14, h15, h16, h17⟩ := h
  exact ⟨h1, InRange_editScalar _ _ _ _ h2, h3, h4, h5, h6, h7, h8, h9, h10,
         h11, h12, h13, h14, h15, h16, h17⟩

theorem uiMetallicReflectanceSliders_preserves (inp : UIInput) (p : SandboxParameters)
    (h : paramsInRange p) : paramsInRange (uiMetallicReflectanceSliders inp p) := by
  obtain ⟨h1, h2, h3, h4, h5, h6, h7, h8, h9, h10, h11, h12, h13, h14, h15, h16, h17⟩ := h
  unfold uiMetallicReflectanceSliders
  split_ifs
  · exact ⟨h1, h2, InRange_editScalar _ _ _ _ h3, InRange_editScalar _ _ _ _ h4,
           h5, h6, h7, h8, h9, h10, h11, h12, h13, h14, h15, h16, h17⟩
  · exact ⟨h1, h2, h3, h4, h5, h6, h7, h8, h9, h10, h11, h12, h13, h14, h15, h16, h17⟩

theorem uiClearCoatSliders_preserves (inp : UIInput) (p : SandboxParameters)
    (h : paramsInRange p) : paramsInRange (uiClearCoatSliders inp p) := by
  obtain ⟨h1, h2, h3, h4, h5, h6, h7, h8, h9, h10, h11, h12, h13, h14, h15, h16, h17⟩ := h
  unfold uiClearCoatSliders
  split_ifs
  · exact ⟨h1, h2, h3, h4, InRange_editScalar _ _ _ _ h5, InRange_editScalar _ _ _ _ h6,
           InRange_editScalar _ _ _ _ h7, h8, h9, h10, h11, h12, h13, h14, h15, h16, h17⟩
  · exact ⟨h1, h2, h3, h4, h5, h6, h7, h8, h9, h10, h11, h12, h13, h14, h15, h16, h17⟩

theorem uiSubsurfaceWidgets_preserves (inp : UIInput) (p : SandboxParameters)
    (h : paramsInRange p) : paramsInRange (uiSubsurfaceWidgets inp p) := by
  obtain ⟨h1, h2, h3, h4, h5, h6, h7, h8, h9, h10, h11, h12, h13, h14, h15, h16, h17⟩ := h
  unfold uiSubsurfaceWidgets
  split_ifs
  · exact ⟨h1, h2, h3, h4, h5, h6, h7, InRange_editScalar _ _ _ _ h8,
           InRange_editScalar _ _ _ _ h9, h10, h11, h12, h13, h14, h15, h16, h17⟩
  · exact ⟨h1, h2, h3, h4, h5, h6, h7, h8, h9, h10, h11, h12, h13, h14, h15, h16, h17⟩

theorem uiClothWidgets_preserves (inp : UIInput) (p : SandboxParameters)
    (h : paramsInRange p) : paramsInRange (uiClothWidgets inp p) := by
  unfold uiClothWidgets
  split_ifs <;> exact h

theorem uiLitGatedWidgets_preserves (inp : UIInput) (p : SandboxParameters)
    (h : paramsInRange p) : paramsInRange (uiLitGatedWidgets inp p) := by
  unfold uiLitGatedWidgets
  split_ifs
  · exact uiClothWidgets_preserves inp _ (uiSubsurfaceWidgets_preserves inp _
      (uiClearCoatSliders_preserves inp _ (uiMetallicReflectanceSliders_preserves inp _
        (uiRoughnessSlider_preserves inp _ (uiAlphaSlider_preserves inp _ h)))))
  · exact h

theorem uiMaterialSection_preserves (inp : UIInput) (p : SandboxParameters)
    (h : paramsInRange p) : paramsInRange (uiMaterialSection inp p) := by
  unfold uiMaterialSection
  split_ifs
  · exact uiLitGatedWidgets_preserves inp _ (uiBaseColorEdit_preserves inp _
      (uiBlendingCombo_preserves inp _ (uiModelCombo_preserves inp _ h)))
  · exact h

theorem uiObjectSection_preserves (inp : UIInput) (p : SandboxParameters)
    (h : paramsInRange p) : paramsInRange (uiObjectSection inp p) := by
  unfold uiObjectSection
  split_ifs <;> exact h

theorem uiLightSection_preserves (inp : UIInput) (p : SandboxParameters)
    (h : paramsInRange p) : paramsInRange (uiLightSection inp p) := by
  obtain ⟨h1, h2, h3, h4, h5, h6, h7, h8, h9, h10, h11, h12, h13, h14, h15, h16, h17⟩ := h
  unfold uiLightSection
  split_ifs
  · exact ⟨h1, h2, h3, h4, h5, h6, h7, h8, h9,
           InRange_editScalar _ _ _ _ h10,
           InRange_editVec3_x _ _ _ _ h11, InRange_editVec3_y _ _ _ _ h12,
           InRange_editVec3_z _ _ _ _ h13,
           InRange_editScalar _ _ _ _ h14, InRange_editScalar _ _ _ _ h15,
           InRange_editScalar _ _ _ _ h16, InRange_editScalar _ _ _ _ h17⟩
  · exact ⟨h1, h2, h3, h4, h5, h6, h7, h8, h9, h10, h11, h12, h13, h14, h15, h16, h17⟩

theorem initialParams_inRange : paramsInRange initialSandboxParameters := by
  norm_num [paramsInRange, InRange, initialSandboxParameters]

/-- C3: every slider-controlled field stays within its slider's range under
every `ui` step, and the sliders impose nothing stronger: an edit to any
value already inside the range is stored verbatim. -/
theorem uiStep_preserves_slider_ranges (inp : UIInput) (p : SandboxParameters)
    (h : paramsInRange p) :
    paramsInRange (uiStep inp p) ∧
    ∀ lo hi v cur : ℚ, lo ≤ v → v ≤ hi → editScalar lo hi cur (some v) = v := by
  constructor
  · exact uiLightSection_preserves inp _
      (uiObjectSection_preserves inp _ (uiMaterialSection_preserves inp p h))
  · intro lo hi v cur hlo hhi
    simp [editScalar, clampQ, min_eq_left hhi, max_eq_right hlo]

/-- Witness for C3: the default record is in range and stays so under an
idle `ui` step. -/
theorem uiStep_preserves_slider_ranges_witness :
    paramsInRange (uiStep idleUIInput initialSandboxParameters) ∧
    ∀ lo hi v cur : ℚ, lo ≤ v → v ≤ hi → editScalar lo hi cur (some v) = v :=
  uiStep_preserves_slider_ranges idleUIInput initialSandboxParameters initialParams_inRange

theorem frameLoop_count_setup (n : ℕ) :
    (frameLoop n).count FrameCallback.setup = 0 := by
  induction n with
  | zero => rfl
  | succ n ih => simp [frameLoop, List.count_cons, ih]

theorem runTrace_count_setup (n : ℕ) :
    (runTrace n).count FrameCallback.setup = 1 := by
  simp [runTrace, List.count_cons, frameLoop_count_setup]

theorem frameLoop_length (n : ℕ) : (frameLoop n).length = 2 * n := by
  induction n with
  | zero => rfl
  | succ n ih => simp [frameLoop, ih]; ring

theorem frameLoop_get (n i : ℕ) (h : i < n) :
    (frameLoop n).get? (2 * i) = some FrameCallback.animate ∧
    (frameLoop n).get? (2 * i + 1) = some FrameCallback.ui := by
  induction n generalizing i with
  | zero => omega
  | succ n ih =>
    cases i with
    | zero => exact ⟨rfl, rfl⟩
    | succ i =>
      have h2 : 2 * (i + 1) = (2 * i + 1) + 1 := by ring
      rw [h2]
      simpa [frameLoop] using ih i (by omega)

/-- C6: the callback schedule of a run is `setup` exactly once, first, and
then `animate` followed by `ui` on each of the `n` frames (the schedule is
a single sequential list: no two callbacks overlap). -/
theorem run_setup_once_then_frames (n : ℕ) :
    (runTrace n).count FrameCallback.setup = 1 ∧
    (runTrace n).get? 0 = some FrameCallback.setup ∧
    (runTrace n).length = 1 + 2 * n ∧
    ∀ i : ℕ, i < n →
      (runTrace n).get? (2 * i + 1) = some FrameCallback.animate ∧
      (runTrace n).get? (2 * i + 2) = some FrameCallback.ui := by
  refine ⟨runTrace_count_setup n, rfl, by simp [runTrace, frameLoop_length]; ring, ?_⟩
  intro i hi
  have hf := frameLoop_get n i hi
  constructor
  · simpa [runTrace] using hf.1
  · show (runTrace n).get? ((2 * i + 1) + 1) = some FrameCallback.ui
    simpa [runTrace] using hf.2

/-- Witness for C6 on a two-frame run, at its second frame. -/
theorem run_setup_once_then_frames_witness :
    (runTrace 2).count FrameCallback.setup = 1 ∧
    (runTrace 2).get? (2 * 1 + 1) = some FrameCallback.animate ∧
    (runTrace 2).get? (2 * 1 + 2) = some FrameCallback.ui :=
  ⟨(run_setup_once_then_frames 2).1,
   ((run_setup_once_then_frames 2).2.2.2 1 (by decide)).1,
   ((run_setup_once_then_frames 2).2.2.2 1 (by decide)).2⟩

/-- C4: the record after the web sandbox's `setup` carries exactly the
demo-chosen overrides (iblIntensity, lightDirection, iblRotation,
clearCoat, metallic, reflectance, color) on top of the struct defaults;
every other field keeps its declared default, and `setup` appears exactly
once in every run's schedule. -/
theorem webSetup_initializes_record :
    (webSetupParams.iblIntensity = 10000 ∧
     webSetupParams.lightDirection = ⟨0, 0, -1⟩ ∧
     webSetupParams.iblRotation = M_PI ∧
     webSetupParams.clearCoat = 0.7 ∧
     webSetupParams.metallic = 0.25 ∧
     webSetupParams.reflectance = 0.75 ∧
     webSetupParams.color = ⟨158 / 255, 118 / 255, 74 / 255⟩) ∧
    (webSetupParams.roughness = 0.6 ∧
     webSetupParams.alpha = 1 ∧
     webSetupParams.thickness = 1 ∧
     webSetupParams.subsurfacePower = 12.234 ∧
     webSetupParams.castShadows = true) ∧
    (webSetupParams.alpha = initialSandboxParameters.alpha ∧
     webSetupParams.roughness = initialSandboxParameters.roughness ∧
     webSetupParams.clearCoatRoughness = initialSandboxParameters.clearCoatRoughness ∧
     webSetupParams.anisotropy = initialSandboxParameters.anisotropy ∧
     webSetupParams.thickness = initialSandboxParameters.thickness ∧
     webSetupParams.subsurfacePower = initialSandboxParameters.subsurfacePower ∧
     webSetupParams.subsurfaceColor = initialSandboxParameters.subsurfaceColor ∧
     webSetupParams.sheenColor = initialSandboxParameters.sheenColor ∧
     webSetupParams.currentMaterialModel = initialSandboxParameters.currentMaterialModel ∧
     webSetupParams.currentBlending = initialSandboxParameters.currentBlending ∧
     webSetupParams.castShadows = initialSandboxParameters.castShadows ∧
     webSetupParams.lightColor = initialSandboxParameters.lightColor ∧
     webSetupParams.lightIntensity = initialSandboxParameters.lightIntensity ∧
     webSetupParams.sunHaloSize = initialSandboxParameters.sunHaloSize ∧
     webSetupParams.sunHaloFalloff = initialSandboxParameters.sunHaloFalloff ∧
     webSetupParams.sunAngularRadius = initialSandboxParameters.sunAngularRadius ∧
     webSetupParams.directional_light_enabled =
       initialSandboxParameters.directional_light_enabled) ∧
    (∀ n : ℕ, (runTrace n).count FrameCallback.setup = 1) := by
  refine ⟨?_, ?_, ?_, runTrace_count_setup⟩ <;>
    norm_num [webSetupParams, initialSandboxParameters]

/-- C1: when the current material model is lit, the tail of `ui` issues
`setParameter` calls for baseColor, roughness, metallic, reflectance,
clearCoat, clearCoatRoughness and anisotropy with the record's values, and
an `alpha` call exactly when the blending mode is not opaque; the
directional-light parameters of the record are handed to the engine's
light manager on the same (every) frame. -/
theorem ui_lit_frame_setters (p : SandboxParameters)
    (hmodel : p.currentMaterialModel = MATERIAL_MODEL_LIT) :
    ("baseColor", ParamValue.srgb p.color) ∈ uiMaterialSetters p ∧
    ("roughness", ParamValue.scalar p.roughness) ∈ uiMaterialSetters p ∧
    ("metallic", ParamValue.scalar p.metallic) ∈ uiMaterialSetters p ∧
    ("reflectance", ParamValue.scalar p.reflectance) ∈ uiMaterialSetters p ∧
    ("clearCoat", ParamValue.scalar p.clearCoat) ∈ uiMaterialSetters p ∧
    ("clearCoatRoughness", ParamValue.scalar p.clearCoatRoughness) ∈ uiMaterialSetters p ∧
    ("anisotropy", ParamValue.scalar p.anisotropy) ∈ uiMaterialSetters p ∧
    (("alpha", ParamValue.scalar p.alpha) ∈ uiMaterialSetters p ↔
      p.currentBlending ≠ BLENDING_OPAQUE) ∧
    pushLightParameters p =
      ⟨p.lightColor, p.lightIntensity, p.lightDirection,
       p.sunAngularRadius, p.sunHaloSize, p.sunHaloFalloff⟩ := by
  have h0 : MATERIAL_MODEL_LIT ≠ MATERIAL_MODEL_UNLIT := by decide
  have h2 : MATERIAL_MODEL_LIT ≠ MATERIAL_MODEL_SUBSURFACE := by decide
  have h3 : MATERIAL_MODEL_LIT ≠ MATERIAL_MODEL_CLOTH := by decide
  refine ⟨by simp [uiMaterialSetters, hmodel, h0, h2, h3],
          by simp [uiMaterialSetters, hmodel, h0, h2, h3],
          by simp [uiMaterialSetters, hmodel, h0, h2, h3],
          by simp [uiMaterialSetters, hmodel, h0, h2, h3],
          by simp [uiMaterialSetters, hmodel, h0, h2, h3],
          by simp [uiMaterialSetters, hmodel, h0, h2, h3],
          by simp [uiMaterialSetters, hmodel, h0, h2, h3], ?_, rfl⟩
  by_cases hb : p.currentBlending = BLENDING_OPAQUE <;>
    simp [uiMaterialSetters, hmodel, hb, h0, h2, h3]

/-- Witness for C1 at the default record (whose model is lit and whose
blending is opaque). -/
theorem ui_lit_frame_setters_witness :
    ("roughness", ParamValue.scalar initialSandboxParameters.roughness) ∈
      uiMaterialSetters initialSandboxParameters ∧
    (("alpha", ParamValue.scalar initialSandboxParameters.alpha) ∈
        uiMaterialSetters initialSandboxParameters ↔
      initialSandboxParameters.currentBlending ≠ BLENDING_OPAQUE) :=
  ⟨(ui_lit_frame_setters initialSandboxParameters rfl).2.1,
   (ui_lit_frame_setters initialSandboxParameters rfl).2.2.2.2.2.2.2.1⟩

/-- C2: the material-model combo offers exactly four shading modes, indexed
unlit = 0, lit = 1, subsurface = 2, cloth = 3, and the tail of `ui` maps
them to material-instance indices: unlit, subsurface and cloth to their own
instance, and lit to the lit / transparent / fade instance according to the
blending mode. -/
theorem materialModel_four_modes_and_instance_mapping :
    modelComboEntries.length = 4 ∧
    modelComboEntries.get? MATERIAL_MODEL_UNLIT.toNat = some "unlit" ∧
    modelComboEntries.get? MATERIAL_MODEL_LIT.toNat = some "lit" ∧
    modelComboEntries.get? MATERIAL_MODEL_SUBSURFACE.toNat = some "subsurface" ∧
    modelComboEntries.get? MATERIAL_MODEL_CLOTH.toNat = some "cloth" ∧
    (∀ blending : ℤ, selectMaterial MATERIAL_MODEL_UNLIT blending = MATERIAL_UNLIT) ∧
    (∀ blending : ℤ, selectMaterial MATERIAL_MODEL_SUBSURFACE blending = MATERIAL_SUBSURFACE) ∧
    (∀ blending : ℤ, selectMaterial MATERIAL_MODEL_CLOTH blending = MATERIAL_CLOTH) ∧
    selectMaterial MATERIAL_MODEL_LIT BLENDING_OPAQUE = MATERIAL_LIT ∧
    selectMaterial MATERIAL_MODEL_LIT BLENDING_TRANSPARENT = MATERIAL_TRANSPARENT ∧
    selectMaterial MATERIAL_MODEL_LIT BLENDING_FADE = MATERIAL_FADE := by
  refine ⟨rfl, rfl, rfl, rfl, rfl, ?_, ?_, ?_, by decide, by decide, by decide⟩ <;>
    intro blending <;>
    norm_num [selectMaterial, MATERIAL_MODEL_UNLIT, MATERIAL_MODEL_LIT,
      MATERIAL_MODEL_SUBSURFACE, MATERIAL_MODEL_CLOTH, MATERIAL_UNLIT,
      MATERIAL_SUBSURFACE, MATERIAL_CLOTH]

/-- C5 counterexample: the parameter record's field list is not the one the
claim enumerates — `alpha`, `currentMaterialModel` (and more) are struct
fields absent from the claimed enumeration. -/
theorem sandboxParameters_fields_counterexample :
    "alpha" ∈ sandboxParametersFields ∧ "alpha" ∉ c5ClaimedFields ∧
    "currentMaterialModel" ∈ sandboxParametersFields ∧
    "currentMaterialModel" ∉ c5ClaimedFields ∧
    "lightColor" ∈ sandboxParametersFields ∧ "lightColor" ∉ c5ClaimedFields ∧
    "sunHaloSize" ∈ sandboxParametersFields ∧ "sunHaloSize" ∉ c5ClaimedFields := by
  decide

/-- C5 amended: the flat parameter record's fields are exactly the claimed
ones plus alpha, anisotropy, the material-model and blending selectors, the
light color and the two sun-halo terms. -/
theorem sandboxParameters_fields_amended :
    sandboxParametersFields.Perm c5AmendedFields := by
  decide

/-- C7: the compiled fragment shader declares version `310 es` and its
`FragColor` is the sum of six texture samples: `uTexture[2]` once and
`uTexture[1]` twice at the offset coordinate
`vTex + 1/textureSize(uTexture[1], 0) + 1/textureSize(uTexture[2], 1)`,
plus one sample each from `uTextureArray[3]`, `uTextureCube[1]` and
`uTexture3D[2]` at `vTex3`. -/
theorem fragMain_version_and_sample_sum (env : ShaderEnv) (vTex : vec2) (vTex3 : vec3) :
    shaderVersion = "310 es" ∧
    ∃ off : vec2,
      off = vTex + vec2Div vec2One (vec2OfIvec2 (env.uTextureSize 1 0)) +
              vec2Div vec2One (vec2OfIvec2 (env.uTextureSize 2 1)) ∧
      fragMain env vTex vTex3 =
        env.uTexture 2 off + env.uTexture 1 off + env.uTexture 1 off +
          env.uTextureArray 3 vTex3 + env.uTextureCube 1 vTex3 +
          env.uTexture3D 2 vTex3 :=
  ⟨rfl, _, rfl, rfl⟩

/-- C8: after the directional-light block of `ui`, the `hasDirectionalLight`
flag equals the UI toggle, the light entity is in the scene exactly when
the toggle is on (assuming scene presence tracked the flag beforehand, as
`setup` establishes), and a scene add/remove call is issued exactly when
the toggle differs from the flag. -/
theorem directionalLight_scene_sync (enabled has inScene : Bool)
    (hinv : inScene = has) :
    (updateDirectionalLight enabled has).1 = enabled ∧
    applySceneOp inScene (updateDirectionalLight enabled has).2 = enabled ∧
    ((updateDirectionalLight enabled has).2 ≠ none ↔ enabled ≠ has) := by
  subst hinv
  cases enabled <;> cases inScene <;> decide

/-- Witness for C8 at the concrete state toggle-on, flag-off, light absent. -/
theorem directionalLight_scene_sync_witness :
    (updateDirectionalLight true false).1 = true ∧
    applySceneOp false (updateDirectionalLight true false).2 = true ∧
    ((updateDirectionalLight true false).2 ≠ none ↔ true ≠ false) :=
  directionalLight_scene_sync true false false rfl

/-- C9: `animate`'s aspect-ratio division has a defined result exactly when
the viewport height is nonzero, in which case it is width divided by
height; a zero-height viewport yields no result. -/
theorem animate_aspect_defined_iff_height_nonzero :
    (∀ width : ℕ, aspectRatio width 0 = none) ∧
    (∀ width height : ℕ, height ≠ 0 →
      aspectRatio width height = some ((width : ℚ) / (height : ℚ))) := by
  constructor
  · intro w
    simp [aspectRatio]
  · intro w h hh
    simp [aspectRatio, hh]

/-- Witness for C9 at a 16 × 9 viewport. -/
theorem animate_aspect_defined_iff_height_nonzero_witness :
    aspectRatio 16 9 = some (((16 : ℕ) : ℚ) / ((9 : ℕ) : ℚ)) :=
  animate_aspect_defined_iff_height_nonzero.2 16 9 (by decide)

/-- C10: on a well-formed viewport, `animate` issues a `setProjection` call
with a 45-degree field of view, near plane 0.1 and far plane 50, choosing
the horizontal direction exactly when width / height is strictly below 1
and the vertical direction otherwise. -/
theorem animate_projection_call (width height : ℕ) (hh : height ≠ 0) :
    ∃ c : ProjectionCall,
      animateSetProjection width height = some c ∧
      c.fovInDegrees = 45.0 ∧ c.near = 0.1 ∧ c.far = 50.0 ∧
      c.aspect = (width : ℚ) / (height : ℚ) ∧
      (c.direction = Fov.HORIZONTAL ↔ (width : ℚ) / (height : ℚ) < 1) ∧
      (c.direction = Fov.VERTICAL ↔ ¬ ((width : ℚ) / (height : ℚ) < 1)) := by
  refine ⟨⟨45.0, (width : ℚ) / (height : ℚ), 0.1, 50.0,
          if (width : ℚ) / (height : ℚ) < 1 then Fov.HORIZONTAL else Fov.VERTICAL⟩,
          ?_, rfl, rfl, rfl, rfl, ?_, ?_⟩
  · simp [animateSetProjection, aspectRatio, hh]
  · by_cases hr : (width : ℚ) / (height : ℚ) < 1 <;> simp [hr]
  · by_cases hr : (width : ℚ) / (height : ℚ) < 1 <;> simp [hr]

/-- Witness for C10 at a 1 × 2 (portrait) viewport. -/
theorem animate_projection_call_witness :
    ∃ c : ProjectionCall,
      animateSetProjection 1 2 = some c ∧
      c.fovInDegrees = 45.0 ∧ c.near = 0.1 ∧ c.far = 50.0 ∧
      c.aspect = ((1 : ℕ) : ℚ) / ((2 : ℕ) : ℚ) ∧
      (c.direction = Fov.HORIZONTAL ↔ ((1 : ℕ) : ℚ) / ((2 : ℕ) : ℚ) < 1) ∧
      (c.direction = Fov.VERTICAL ↔ ¬ (((1 : ℕ) : ℚ) / ((2 : ℕ) : ℚ) < 1)) :=
  animate_projection_call 1 2 (by decide)

end MaterialSandbox
